/-
  Verification of the restaurant-lookup engine.

  Shallow embedding of the core components of the repository:
  `time_checker.py` (TimeChecker.is_open), `spatial_index.py` (SpatialIndex),
  and `decorator.py` (CachingSpatialIndex), together with proofs of the
  behavioural claims about them.

  Modelling conventions:
  * Clock times (`datetime.time`) are microseconds-of-day (`Nat`); Python's
    `time` comparison is lexicographic on (hour, minute, second, microsecond),
    which coincides with the numeric order on microseconds-of-day.
  * Python exceptions (KeyError, ValueError from strptime) are `Option`:
    `none` means the call raised.
  * `datetime.now().time()` — the ambient wall clock read inside
    `TimeChecker.is_open` when no instant is supplied — is an explicit
    parameter `now` threaded through the embedding.
  * Coordinates, radii and distances are `ℚ`.  The injected
    `DistanceCalculator` (a pyproj WGS84 geodesic solver) is an abstract
    parameter `dist`; concrete instantiations use `equatorDist` below.
  * Python 3.7+ `dict`s iterate in insertion order; they are embedded as
    insertion-ordered association lists.  The R-tree of the `rtree` library
    is embedded as the insertion-ordered list of its (id, point) entries,
    `intersection` returning matching entries in that order.
-/

import Mathlib

namespace RestaurantLookup

/-! ### Clock times -/

/-- A `datetime.time` value as microseconds of the day. -/
abbrev Time := ℕ

/-- Build a time-of-day from hours, minutes and seconds (microsecond 0),
as `datetime.strptime(s, '%H:%M:%S').time()` does. -/
def mkTime (h m s : ℕ) : Time := ((h * 60 + m) * 60 + s) * 1000000

/-! ### Parsing `'%H:%M:%S'` (datetime.strptime)

`TimeChecker.is_open` calls `datetime.strptime(s, '%H:%M:%S')` on its two
hour strings.  For that format, strptime accepts one or two digits per
field, requires literal `:` separators and nothing else, and range-checks
hour ≤ 23, minute ≤ 59, second ≤ 59 (a malformed string or an
out-of-range field raises ValueError, embedded as `none`). -/

/-- Split a character list on `':'` (the literal separators of the
`'%H:%M:%S'` format). -/
def splitColons (cs : List Char) : List (List Char) :=
  match cs with
  | [] => [[]]
  | c :: rest =>
    let r := splitColons rest
    if c = ':' then [] :: r
    else match r with
      | [] => [[c]]
      | f :: more => (c :: f) :: more

/-- Numeric value of a one- or two-digit ASCII field, `none` when the field
does not match the `\d{1,2}` pattern strptime uses for `%H`, `%M`, `%S`. -/
def parseField (cs : List Char) : Option ℕ :=
  match cs with
  | [c] => if c.isDigit then some (c.toNat - '0'.toNat) else none
  | [c, d] =>
    if c.isDigit ∧ d.isDigit then
      some ((c.toNat - '0'.toNat) * 10 + (d.toNat - '0'.toNat))
    else none
  | _ => none

/-- `datetime.strptime(s, '%H:%M:%S').time()`: parse an `HH:MM:SS` string,
`none` embedding the ValueError raised on malformed input. -/
def parseTime (s : String) : Option Time :=
  match splitColons s.data with
  | [h, m, sec] => do
    let hv ← parseField h
    let mv ← parseField m
    let sv ← parseField sec
    if hv ≤ 23 ∧ mv ≤ 59 ∧ sv ≤ 59 then some (mkTime hv mv sv) else none
  | _ => none

/-! ### TimeChecker (`time_checker.py`) -/

/-- `TimeChecker.is_open(open_hour, close_hour, current_time)`.

`current_time = None` is `none`; in that case the code substitutes
`datetime.now().time()`, embedded as the ambient-clock parameter `now`.
The two hour strings are parsed *inside* the method; a malformed string
raises ValueError there, embedded as `none`. -/
def is_open (open_hour close_hour : String) (current_time : Option Time)
    (now : Time) : Option Bool := do
  let t := current_time.getD now
  let open_time ← parseTime open_hour
  let close_time ← parseTime close_hour
  if open_time ≤ close_time then
    some (decide (open_time ≤ t ∧ t ≤ close_time))
  else
    some (decide (t ≥ open_time ∨ t ≤ close_time))

/-! ### Restaurant rows and the attribute dictionary (`spatial_index.py`) -/

/-- One row of the provider DataFrame, i.e. one entry of the
`self.restaurants` dictionary built by `SpatialIndex.build_index`. -/
structure Restaurant where
  id : ℤ
  latitude : ℚ
  longitude : ℚ
  availability_radius : ℚ
  open_hour : String
  close_hour : String
  rating : ℚ
deriving Repr, DecidableEq

/-- A Python `dict` keyed by restaurant id, as an insertion-ordered
association list (Python 3.7+ dict semantics). -/
abbrev RestaurantDict := List (ℤ × Restaurant)

/-- `d[k] = v` on a Python dict: overwrite in place when the key exists,
append otherwise. -/
def dictInsert (d : RestaurantDict) (k : ℤ) (v : Restaurant) : RestaurantDict :=
  if d.any (fun p => p.1 = k) then
    d.map (fun p => if p.1 = k then (k, v) else p)
  else d ++ [(k, v)]

/-- `d[k]` on a Python dict; `none` embeds the KeyError raised for a
missing key. -/
def dictGet (d : RestaurantDict) (k : ℤ) : Option Restaurant :=
  (d.find? (fun p => p.1 = k)).map Prod.snd

/-! ### SpatialIndex state -/

/-- The mutable state of a `SpatialIndex`: the R-tree `self.idx` (embedded
as the insertion-ordered list of its (id, latitude, longitude) point
entries) and the attribute dictionary `self.restaurants`.  The injected
`TimeChecker` is stateless; the injected `DistanceCalculator` is an
abstract function parameter `dist` of the query operations. -/
structure SpatialIndex where
  idx : List (ℤ × ℚ × ℚ)
  restaurants : RestaurantDict
deriving Repr, DecidableEq

/-- `SpatialIndex.__init__`: empty R-tree, empty dictionary. -/
def SpatialIndex.init : SpatialIndex := ⟨[], []⟩

/-- One iteration of the `build_index` loop: store the row in
`self.restaurants` and insert its point into the R-tree. -/
def insertRow (st : SpatialIndex) (row : Restaurant) : SpatialIndex :=
  { idx := st.idx ++ [(row.id, row.latitude, row.longitude)],
    restaurants := dictInsert st.restaurants row.id row }

/-- `SpatialIndex.build_index(restaurants_df)`: iterate over the rows of
the DataFrame (embedded as a list of `Restaurant` rows), adding each to
the dictionary and the R-tree.  Nothing is cleared first. -/
def build_index (st : SpatialIndex) (restaurants_df : List Restaurant) :
    SpatialIndex :=
  restaurants_df.foldl insertRow st

/-- The bounding-box half-width used by `_get_candidate_restaurants`:
`MAX_RADIUS_KM = 100` converted to degrees by `100 / 111`. -/
def radius_deg : ℚ := 100 / 111

/-- `SpatialIndex._get_candidate_restaurants(latitude, longitude)`:
R-tree intersection of the degenerate point entries with the query box
`(lat - radius_deg, lon - radius_deg, lat + radius_deg, lon + radius_deg)`
(bounds inclusive), in the model in insertion order. -/
def get_candidate_restaurants (st : SpatialIndex) (latitude longitude : ℚ) :
    List ℤ :=
  (st.idx.filter (fun e =>
    decide (latitude - radius_deg ≤ e.2.1 ∧ e.2.1 ≤ latitude + radius_deg ∧
      longitude - radius_deg ≤ e.2.2 ∧ e.2.2 ≤ longitude + radius_deg))).map
    Prod.fst

/-- `SpatialIndex._filter_candidates(candidates, latitude, longitude,
current_time)`: for each candidate id look up its record (KeyError →
`none`), compute the injected distance, and keep the id when the distance
is within the availability radius **and** `is_open` holds; `and` is
short-circuiting, so `is_open` (and hence hour parsing) only runs when the
distance check passed. -/
def filter_candidates (dist : ℚ → ℚ → ℚ → ℚ → ℚ) (st : SpatialIndex)
    (candidates : List ℤ) (latitude longitude : ℚ)
    (current_time : Option Time) (now : Time) : Option (List ℤ) :=
  match candidates with
  | [] => some []
  | c :: rest => do
    let r ← dictGet st.restaurants c
    let distance := dist latitude longitude r.latitude r.longitude
    if distance ≤ r.availability_radius then
      let o ← is_open r.open_hour r.close_hour current_time now
      let tail ← filter_candidates dist st rest latitude longitude
        current_time now
      if o then some (c :: tail) else some tail
    else
      filter_candidates dist st rest latitude longitude current_time now

/-- `SpatialIndex.find_restaurants_in_radius(latitude, longitude,
current_time)`: coarse candidates from the R-tree, then the fine filter. -/
def find_restaurants_in_radius (dist : ℚ → ℚ → ℚ → ℚ → ℚ)
    (st : SpatialIndex) (latitude longitude : ℚ)
    (current_time : Option Time) (now : Time) : Option (List ℤ) :=
  filter_candidates dist st (get_candidate_restaurants st latitude longitude)
    latitude longitude current_time now

/-! ### A concrete geodesic distance for equatorial points

`DistanceCalculator.calculate_distance` solves the WGS84 inverse geodesic
problem (pyproj `Geod.inv`).  For two points that both lie on the equator
(latitude 0, longitudes less than half a circumference apart) the geodesic
runs along the equator, whose WGS84 length is 111.3195 km per degree to
four decimal places.  `equatorDist` is `calculate_distance` restricted to
such points; every concrete instantiation below uses only equatorial
points and compares distances with tens of kilometres of slack, so the
sub-metre model error cannot affect any comparison. -/
def equatorDist (_lat1 lon1 _lat2 lon2 : ℚ) : ℚ :=
  (1113195 / 10000) * |lon2 - lon1|

/-! ### The spec's brute-force oracle

Written from the spec's words (section 8, the ground-truth oracle), for
comparison with `find_restaurants_in_radius`: scan all loaded providers,
keeping those within their radius and open at the effective instant. -/

/-- Open/closed status at instant `t` as a Boolean: the value `is_open`
returns when both hour strings parse (and `false` when one does not —
that branch is only reached under well-formedness hypotheses below). -/
def openBool (open_hour close_hour : String) (t : Time) : Bool :=
  match parseTime open_hour, parseTime close_hour with
  | some ot, some ct =>
    if ot ≤ ct then decide (ot ≤ t ∧ t ≤ ct) else decide (t ≥ ot ∨ t ≤ ct)
  | _, _ => false

/-- The brute-force scan of the spec: every loaded provider whose distance
is within its radius and which is open at the effective instant, in load
order. -/
def bruteForce (dist : ℚ → ℚ → ℚ → ℚ → ℚ) (restaurants_df : List Restaurant)
    (latitude longitude : ℚ) (t : Time) : List ℤ :=
  (restaurants_df.filter (fun r =>
    decide (dist latitude longitude r.latitude r.longitude ≤
      r.availability_radius) && openBool r.open_hour r.close_hour t)).map
    Restaurant.id

/-- The fine-filter condition of the code on a row: within the injected
distance, and open. -/
def fineCond (dist : ℚ → ℚ → ℚ → ℚ → ℚ) (latitude longitude : ℚ) (t : Time)
    (r : Restaurant) : Bool :=
  decide (dist latitude longitude r.latitude r.longitude ≤
    r.availability_radius) && openBool r.open_hour r.close_hour t

/-- The coarse bounding-box condition on a row: its point lies in the
fixed `radius_deg` box around the query point. -/
def boxCond (latitude longitude : ℚ) (r : Restaurant) : Bool :=
  decide (latitude - radius_deg ≤ r.latitude ∧
    r.latitude ≤ latitude + radius_deg ∧
    longitude - radius_deg ≤ r.longitude ∧
    r.longitude ≤ longitude + radius_deg)

/-! ### CachingSpatialIndex (`decorator.py`)

The decorator wraps any object satisfying the SpatialIndex interface; the
wrapped index's state type `σ` and its two methods are parameters.  The
cache is a Python dict from quantized keys to result lists, embedded as an
insertion-ordered association list. -/

/-- `round(q, 4)`: round to four decimal places.  (Python rounds the
nearest binary double half-to-even; the tie-breaking rule is irrelevant to
every claim, which only uses equality of rounded values.) -/
def round4 (q : ℚ) : ℚ := (round (q * 10000) : ℤ) / 10000

/-- The time component of the cache key: the string
`f"\x7bcurrent_time.hour\x7d:\x7bcurrent_time.minute\x7d"`, or `None` when no
instant was supplied.  Embedded as the (hour, minute) pair, onto which the
string is injective. -/
def timeKey (current_time : Option Time) : Option (ℕ × ℕ) :=
  current_time.map (fun μ => (μ / 3600000000, μ / 60000000 % 60))

/-- A quantized cache key: rounded latitude, rounded longitude, truncated
instant. -/
abbrev CacheKey := ℚ × ℚ × Option (ℕ × ℕ)

/-- The cache key computed by
`CachingSpatialIndex.find_restaurants_in_radius`. -/
def cacheKey (latitude longitude : ℚ) (current_time : Option Time) :
    CacheKey :=
  (round4 latitude, round4 longitude, timeKey current_time)

/-- Cache lookup (`cache_key in self.cache` / `self.cache[cache_key]`). -/
def cacheLookup (cache : List (CacheKey × List ℤ)) (k : CacheKey) :
    Option (List ℤ) :=
  (cache.find? (fun p => p.1 = k)).map Prod.snd

/-- The state of a `CachingSpatialIndex` wrapping an index with state
type `σ`. -/
structure CachingSpatialIndex (σ : Type*) where
  spatial_index : σ
  cache : List (CacheKey × List ℤ)
  cache_size : ℕ
  cache_hits : ℕ
  cache_misses : ℕ

/-- `CachingSpatialIndex.__init__(spatial_index, cache_size)`. -/
def CachingSpatialIndex.init {σ : Type*} (spatial_index : σ)
    (cache_size : ℕ) : CachingSpatialIndex σ :=
  ⟨spatial_index, [], cache_size, 0, 0⟩

/-- `CachingSpatialIndex.build_index(restaurants_data)`: clear the cache,
reset both counters, delegate to the wrapped index's `build_index`
(abstracted as `innerBuild`). -/
def cachedBuildIndex {σ δ : Type*} (innerBuild : σ → δ → σ)
    (st : CachingSpatialIndex σ) (restaurants_data : δ) :
    CachingSpatialIndex σ :=
  { spatial_index := innerBuild st.spatial_index restaurants_data,
    cache := [], cache_size := st.cache_size,
    cache_hits := 0, cache_misses := 0 }

/-- `CachingSpatialIndex.find_restaurants_in_radius(latitude, longitude,
current_time)`: compute the quantized key; on hit increment the hit
counter and return the stored list without touching the wrapped index; on
miss increment the miss counter, delegate to the wrapped index's query
method (abstracted as `innerFind`, read-only on `σ`), evict the first
entry in dict-iteration (= insertion) order when the cache is full, store
and return the result. -/
def cachedFind {σ : Type*} (innerFind : σ → ℚ → ℚ → Option Time → List ℤ)
    (st : CachingSpatialIndex σ) (latitude longitude : ℚ)
    (current_time : Option Time) : List ℤ × CachingSpatialIndex σ :=
  let k := cacheKey latitude longitude current_time
  match cacheLookup st.cache k with
  | some stored => (stored, { st with cache_hits := st.cache_hits + 1 })
  | none =>
    let result := innerFind st.spatial_index latitude longitude current_time
    let evicted :=
      if st.cache_size ≤ st.cache.length then st.cache.drop 1 else st.cache
    (result,
      { st with cache_misses := st.cache_misses + 1,
                cache := evicted ++ [(k, result)] })

/-- A sequence of queries against a `CachingSpatialIndex`, returning the
final state (each call's result list is discarded). -/
def runQueries {σ : Type*} (innerFind : σ → ℚ → ℚ → Option Time → List ℤ)
    (st : CachingSpatialIndex σ) (qs : List (ℚ × ℚ × Option Time)) :
    CachingSpatialIndex σ :=
  qs.foldl (fun s q => (cachedFind innerFind s q.1 q.2.1 q.2.2).2) st

/-! ### Helper lemmas: the state after `build_index` -/

theorem build_index_idx (st : SpatialIndex) (df : List Restaurant) :
    (build_index st df).idx =
      st.idx ++ df.map (fun r => (r.id, r.latitude, r.longitude)) := by
  induction df generalizing st with
  | nil => simp [build_index]
  | cons r rest ih =>
    simp [build_index, insertRow] at ih ⊢
    rw [ih]
    simp

theorem dictGet_dictInsert_self (d : RestaurantDict) (k : ℤ)
    (v : Restaurant) : dictGet (dictInsert d k v) k = some v := by
  by_cases h : d.any (fun p => decide (p.1 = k)) = true
  · have hcomp : ((fun p : ℤ × Restaurant => decide (p.1 = k)) ∘
        (fun p => if p.1 = k then (k, v) else p)) =
        fun p => decide (p.1 = k) := by
      funext p
      by_cases hp : p.1 = k <;> simp [hp]
    rcases List.any_eq_true.mp h with ⟨x, hxmem, hxk⟩
    have hsome : (d.find? fun p => decide (p.1 = k)).isSome :=
      List.find?_isSome.mpr ⟨x, hxmem, hxk⟩
    rcases Option.isSome_iff_exists.mp hsome with ⟨y, hy⟩
    have hyk : y.1 = k := by simpa using List.find?_some hy
    simp only [dictInsert, h, if_true, dictGet, List.find?_map, hcomp, hy,
      Option.map_map, Option.map_some]
    simp [hyk]
  · have hnone : d.find? (fun p => decide (p.1 = k)) = none :=
      List.find?_eq_none.mpr (by
        intro x hx hxk
        exact h (List.any_eq_true.mpr ⟨x, hx, hxk⟩))
    simp [dictInsert, h, dictGet, List.find?_append, hnone]

theorem dictGet_dictInsert_ne (d : RestaurantDict) (k i : ℤ)
    (v : Restaurant) (hne : k ≠ i) :
    dictGet (dictInsert d k v) i = dictGet d i := by
  by_cases h : d.any (fun p => decide (p.1 = k)) = true
  · have hcomp : ((fun p : ℤ × Restaurant => decide (p.1 = i)) ∘
        (fun p => if p.1 = k then (k, v) else p)) =
        fun p => decide (p.1 = i) := by
      funext p
      by_cases hp : p.1 = k
      · simp [hp, hne]
      · simp [hp]
    simp only [dictInsert, h, if_true, dictGet, List.find?_map, hcomp]
    cases hfind : d.find? (fun p => decide (p.1 = i)) with
    | none => simp
    | some y =>
      have hyi : y.1 = i := by simpa using List.find?_some hfind
      have hyk : ¬ y.1 = k := by rw [hyi]; exact fun hh => hne hh.symm
      simp [hyk]
  · have hsingle : ([((k, v) : ℤ × Restaurant)].find?
        fun p => decide (p.1 = i)) = none := by
      simp [hne]
    simp [dictInsert, h, dictGet, List.find?_append, hsingle]

theorem build_index_restaurants_not_mem (df : List Restaurant)
    (st : SpatialIndex) (i : ℤ) (h : i ∉ df.map Restaurant.id) :
    dictGet (build_index st df).restaurants i = dictGet st.restaurants i := by
  induction df generalizing st with
  | nil => rfl
  | cons r rest ih =>
    simp only [List.map_cons, List.mem_cons, not_or] at h
    have hstep : build_index st (r :: rest) =
        build_index (insertRow st r) rest := rfl
    rw [hstep, ih (insertRow st r) (by simpa using h.2)]
    exact dictGet_dictInsert_ne _ _ _ _ (fun hh => h.1 hh.symm)

theorem build_index_restaurants_mem (df : List Restaurant)
    (st : SpatialIndex) (r : Restaurant)
    (hnd : (df.map Restaurant.id).Nodup) (hr : r ∈ df) :
    dictGet (build_index st df).restaurants r.id = some r := by
  induction df generalizing st with
  | nil => cases hr
  | cons x rest ih =>
    simp only [List.map_cons, List.nodup_cons] at hnd
    have hstep : build_index st (x :: rest) =
        build_index (insertRow st x) rest := rfl
    rcases List.mem_cons.mp hr with h1 | h2
    · subst h1
      rw [hstep, build_index_restaurants_not_mem rest _ r.id hnd.1]
      exact dictGet_dictInsert_self _ _ _
    · rw [hstep]
      exact ih (insertRow st x) hnd.2 h2

theorem get_candidate_restaurants_build (df : List Restaurant)
    (lat lon : ℚ) :
    get_candidate_restaurants (build_index SpatialIndex.init df) lat lon =
      (df.filter (boxCond lat lon)).map Restaurant.id := by
  unfold get_candidate_restaurants
  rw [build_index_idx]
  simp only [SpatialIndex.init, List.nil_append, List.filter_map,
    List.map_map]
  rfl

theorem is_open_eq_openBool (o c : String) (ct : Option Time) (now : Time)
    (ho : (parseTime o).isSome) (hc : (parseTime c).isSome) :
    is_open o c ct now = some (openBool o c (ct.getD now)) := by
  rcases Option.isSome_iff_exists.mp ho with ⟨ot, hot⟩
  rcases Option.isSome_iff_exists.mp hc with ⟨ctv, hct⟩
  simp only [is_open, openBool, hot, hct, Option.bind_eq_bind,
    Option.some_bind]
  split <;> rfl

theorem filter_candidates_map (dist : ℚ → ℚ → ℚ → ℚ → ℚ)
    (st : SpatialIndex) (l : List Restaurant) (lat lon : ℚ)
    (ct : Option Time) (now : Time)
    (h : ∀ r ∈ l, dictGet st.restaurants r.id = some r ∧
      (parseTime r.open_hour).isSome ∧ (parseTime r.close_hour).isSome) :
    filter_candidates dist st (l.map Restaurant.id) lat lon ct now =
      some ((l.filter (fineCond dist lat lon (ct.getD now))).map
        Restaurant.id) := by
  induction l with
  | nil => rfl
  | cons r rest ih =>
    obtain ⟨hget, hpo, hpc⟩ := h r (List.mem_cons_self r rest)
    have hrest := ih (fun x hx => h x (List.mem_cons_of_mem _ hx))
    simp only [List.map_cons, filter_candidates, hget, Option.bind_eq_bind,
      Option.some_bind]
    by_cases hd : dist lat lon r.latitude r.longitude ≤ r.availability_radius
    · rw [if_pos hd, is_open_eq_openBool _ _ _ _ hpo hpc, hrest]
      by_cases hob : openBool r.open_hour r.close_hour (ct.getD now) = true
      · simp [List.filter_cons, fineCond, hd, hob]
      · simp [List.filter_cons, fineCond, hd, hob]
    · rw [if_neg hd, hrest]
      simp [List.filter_cons, fineCond, hd]

theorem find_restaurants_build (dist : ℚ → ℚ → ℚ → ℚ → ℚ)
    (df : List Restaurant) (lat lon : ℚ) (ct : Option Time) (now : Time)
    (hnd : (df.map Restaurant.id).Nodup)
    (hwf : ∀ r ∈ df, (parseTime r.open_hour).isSome ∧
      (parseTime r.close_hour).isSome) :
    find_restaurants_in_radius dist (build_index SpatialIndex.init df)
      lat lon ct now =
      some ((df.filter (fun r => boxCond lat lon r &&
        fineCond dist lat lon (ct.getD now) r)).map Restaurant.id) := by
  unfold find_restaurants_in_radius
  rw [get_candidate_restaurants_build,
    filter_candidates_map dist _ _ lat lon ct now (by
      intro r hr
      have hrdf : r ∈ df := List.mem_of_mem_filter hr
      exact ⟨build_index_restaurants_mem _ _ _ hnd hrdf,
        (hwf r hrdf).1, (hwf r hrdf).2⟩),
    List.filter_filter]
  have hcomm : (fun a => fineCond dist lat lon (ct.getD now) a &&
      boxCond lat lon a) = (fun r => boxCond lat lon r &&
      fineCond dist lat lon (ct.getD now) r) := by
    funext a
    exact Bool.and_comm _ _
  rw [hcomm]

/-! ### Evaluation lemmas for concrete hour strings -/

theorem parseTime_000000 : parseTime "00:00:00" = some (mkTime 0 0 0) := by
  decide

theorem parseTime_235959 : parseTime "23:59:59" = some (mkTime 23 59 59) := by
  decide

theorem parseTime_090000 : parseTime "09:00:00" = some (mkTime 9 0 0) := by
  decide

theorem parseTime_170000 : parseTime "17:00:00" = some (mkTime 17 0 0) := by
  decide

/-! ### Claims about TimeChecker -/

/-- C5: for every pair of well-formed open/close times and every instant
`t`: when `open_time ≤ close_time`, `is_open` returns true iff
`open_time ≤ t ≤ close_time` (inclusive on both bounds); when
`open_time > close_time` (window crosses midnight), it returns true iff
`t ≥ open_time` or `t ≤ close_time`.  Stated as an equality giving the
exact Boolean in each case. -/
theorem C5_is_open_window_semantics (o c : String) (ot ctv t now : Time)
    (ho : parseTime o = some ot) (hc : parseTime c = some ctv) :
    is_open o c (some t) now =
      some (if ot ≤ ctv then decide (ot ≤ t ∧ t ≤ ctv)
        else decide (t ≥ ot ∨ t ≤ ctv)) := by
  simp only [is_open, ho, hc, Option.bind_eq_bind, Option.some_bind,
    Option.getD_some]
  split <;> rfl

/-- C5 witness: the overnight window 22:00:00–06:00:00 is open at
23:00:00 and 02:00:00 and closed at 21:59:59 and 06:00:01. -/
theorem C5_is_open_window_semantics_witness :
    is_open "22:00:00" "06:00:00" (some (mkTime 23 0 0)) 0 = some true ∧
    is_open "22:00:00" "06:00:00" (some (mkTime 2 0 0)) 0 = some true ∧
    is_open "22:00:00" "06:00:00" (some (mkTime 21 59 59)) 0 = some false ∧
    is_open "22:00:00" "06:00:00" (some (mkTime 6 0 1)) 0 = some false := by
  refine ⟨?_, ?_, ?_, ?_⟩
  · rw [C5_is_open_window_semantics "22:00:00" "06:00:00" (mkTime 22 0 0)
      (mkTime 6 0 0) (mkTime 23 0 0) 0 (by decide) (by decide)]
    decide
  · rw [C5_is_open_window_semantics "22:00:00" "06:00:00" (mkTime 22 0 0)
      (mkTime 6 0 0) (mkTime 2 0 0) 0 (by decide) (by decide)]
    decide
  · rw [C5_is_open_window_semantics "22:00:00" "06:00:00" (mkTime 22 0 0)
      (mkTime 6 0 0) (mkTime 21 59 59) 0 (by decide) (by decide)]
    decide
  · rw [C5_is_open_window_semantics "22:00:00" "06:00:00" (mkTime 22 0 0)
      (mkTime 6 0 0) (mkTime 6 0 1) 0 (by decide) (by decide)]
    decide

/-- C8 counterexample: `is_open` does *not* take already-parsed time
values and is not total over its string arguments: it parses its two hour
strings itself, and a malformed string (here an out-of-range hour, and a
non-numeric string) raises ValueError *inside* `is_open` (embedded as
`none`), not at a boundary outside it. -/
theorem C8_counterexample_parse_inside :
    is_open "25:00:00" "09:00:00" (some (mkTime 12 0 0)) 0 = none ∧
    is_open "not-a-time" "09:00:00" (some (mkTime 12 0 0)) 0 = none := by
  exact ⟨by decide, by decide⟩

/-- C8 (amended): `is_open` receives raw time *strings* and parses them
internally; malformed strings make `is_open` itself raise.  On
well-formed (parseable) hour strings it always returns a Boolean,
whatever the instant argument. -/
theorem C8_is_open_total_on_wellformed (o c : String) (ct : Option Time)
    (now : Time) (ho : (parseTime o).isSome) (hc : (parseTime c).isSome) :
    (is_open o c ct now).isSome = true := by
  rw [is_open_eq_openBool o c ct now ho hc]
  rfl

/-- C8 witness: well-formed hour strings, instant omitted. -/
theorem C8_is_open_total_on_wellformed_witness :
    (parseTime "09:00:00").isSome = true ∧
    (parseTime "17:00:00").isSome = true ∧
    (is_open "09:00:00" "17:00:00" none 0).isSome = true :=
  ⟨by decide, by decide,
    C8_is_open_total_on_wellformed "09:00:00" "17:00:00" none 0
      (by decide) (by decide)⟩

/-- C9 counterexample: when the instant is omitted,
`TimeChecker.is_open` substitutes `datetime.now().time()` *inside* the
core, so the query result depends on the ambient wall clock: the same
built index queried with identical arguments (instant omitted) returns
`[1]` when the clock reads 12:00:00 and `[]` when it reads 03:00:00. -/
theorem C9_counterexample_now_dependence :
    find_restaurants_in_radius equatorDist
      (build_index SpatialIndex.init
        [⟨1, 0, 0, 5, "09:00:00", "17:00:00", 4⟩]) 0 0 none
      (mkTime 12 0 0) = some [1] ∧
    find_restaurants_in_radius equatorDist
      (build_index SpatialIndex.init
        [⟨1, 0, 0, 5, "09:00:00", "17:00:00", 4⟩]) 0 0 none
      (mkTime 3 0 0) = some [] ∧
    find_restaurants_in_radius equatorDist
      (build_index SpatialIndex.init
        [⟨1, 0, 0, 5, "09:00:00", "17:00:00", 4⟩]) 0 0 none
      (mkTime 12 0 0) ≠
    find_restaurants_in_radius equatorDist
      (build_index SpatialIndex.init
        [⟨1, 0, 0, 5, "09:00:00", "17:00:00", 4⟩]) 0 0 none
      (mkTime 3 0 0) := by
  have h1 : find_restaurants_in_radius equatorDist
      (build_index SpatialIndex.init
        [⟨1, 0, 0, 5, "09:00:00", "17:00:00", 4⟩]) 0 0 none
      (mkTime 12 0 0) = some [1] := by
    rw [find_restaurants_in_radius, build_index]
    norm_num [insertRow, SpatialIndex.init, get_candidate_restaurants,
      radius_deg, filter_candidates, dictGet, dictInsert, equatorDist,
      is_open, parseTime_090000, parseTime_170000, mkTime]
  have h2 : find_restaurants_in_radius equatorDist
      (build_index SpatialIndex.init
        [⟨1, 0, 0, 5, "09:00:00", "17:00:00", 4⟩]) 0 0 none
      (mkTime 3 0 0) = some [] := by
    rw [find_restaurants_in_radius, build_index]
    norm_num [insertRow, SpatialIndex.init, get_candidate_restaurants,
      radius_deg, filter_candidates, dictGet, dictInsert, equatorDist,
      is_open, parseTime_090000, parseTime_170000, mkTime]
  refine ⟨h1, h2, ?_⟩
  rw [h1, h2]
  simp

/-- C9 (amended): with an explicitly supplied instant the core is
deterministic — the result is a pure function of the index state and the
arguments, independent of the ambient wall clock; only an omitted
instant makes the internally generated `datetime.now()` observable. -/
theorem C9_deterministic_with_explicit_instant (dist : ℚ → ℚ → ℚ → ℚ → ℚ)
    (st : SpatialIndex) (lat lon : ℚ) (t now1 now2 : Time) :
    find_restaurants_in_radius dist st lat lon (some t) now1 =
      find_restaurants_in_radius dist st lat lon (some t) now2 := by
  unfold find_restaurants_in_radius
  generalize get_candidate_restaurants st lat lon = cs
  induction cs with
  | nil => rfl
  | cons c rest ih =>
    have hopen : ∀ o cl, is_open o cl (some t) now1 =
        is_open o cl (some t) now2 := by
      intro o cl
      simp [is_open]
    simp only [filter_candidates, hopen, ih]

/-! ### Claims about SpatialIndex -/

/-- C2 counterexample: the prefilter *does* exclude a provider that is
legitimately in range.  A provider on the equator 2° of longitude
(≈ 222.64 km) from the query point with `availability_radius = 300` km is
within its radius, yet the fixed `100/111`-degree bounding box used by
`_get_candidate_restaurants` drops it: the candidate set is empty. -/
theorem C2_counterexample_prefilter_drops :
    equatorDist 0 0 0 2 ≤ 300 ∧
    get_candidate_restaurants
      (build_index SpatialIndex.init
        [⟨7, 0, 2, 300, "00:00:00", "23:59:59", 5⟩]) 0 0 = [] := by
  constructor
  · show (1113195 / 10000 : ℚ) * |(2 : ℚ) - 0| ≤ 300
    rw [abs_of_nonneg (by norm_num : (0 : ℚ) ≤ 2 - 0)]
    norm_num
  · rw [get_candidate_restaurants_build]
    norm_num [boxCond, radius_deg]

/-- C2 (amended): the coarse prefilter returns exactly the loaded
providers whose coordinates lie in the fixed `100/111`-degree box around
the query point (in load order).  It never excludes a provider *inside*
that box, but a provider within its own `availability_radius` yet outside
the box — possible whenever the radius exceeds the hard-coded 100 km
bound — is silently dropped. -/
theorem C2_prefilter_box_characterization (df : List Restaurant)
    (lat lon : ℚ) :
    get_candidate_restaurants (build_index SpatialIndex.init df) lat lon =
      (df.filter (boxCond lat lon)).map Restaurant.id :=
  get_candidate_restaurants_build df lat lon

/-- C1 counterexample: the indexed query does not equal the brute-force
scan.  The provider of `C2_counterexample_prefilter_drops`'s dataset is
within its radius and open at noon, so the brute-force scan returns
`[7]`, but the indexed query returns `[]`. -/
theorem C1_counterexample_not_brute_force :
    equatorDist 0 0 0 2 ≤ 300 ∧
    is_open "00:00:00" "23:59:59" (some (mkTime 12 0 0)) 0 = some true ∧
    find_restaurants_in_radius equatorDist
      (build_index SpatialIndex.init
        [⟨7, 0, 2, 300, "00:00:00", "23:59:59", 5⟩]) 0 0
      (some (mkTime 12 0 0)) 0 = some [] ∧
    bruteForce equatorDist [⟨7, 0, 2, 300, "00:00:00", "23:59:59", 5⟩]
      0 0 (mkTime 12 0 0) = [7] := by
  have habs : |(2 : ℚ) - 0| = 2 := by
    rw [abs_of_nonneg (by norm_num : (0 : ℚ) ≤ 2 - 0)]
    norm_num
  refine ⟨?_, ?_, ?_, ?_⟩
  · show (1113195 / 10000 : ℚ) * |(2 : ℚ) - 0| ≤ 300
    rw [habs]
    norm_num
  · decide
  · rw [find_restaurants_in_radius, build_index]
    norm_num [insertRow, SpatialIndex.init, get_candidate_restaurants,
      radius_deg, filter_candidates]
  · rw [bruteForce]
    norm_num [equatorDist, habs, openBool, parseTime_000000,
      parseTime_235959, mkTime]

/-- C1 (amended): for a well-formed dataset (distinct ids, parseable hour
strings), a provider's id appears in the result of
`find_restaurants_in_radius` iff its point lies in the fixed
`100/111`-degree prefilter box around the query point AND its distance is
within its `availability_radius` AND `is_open` holds at the query
instant.  (The claim as frozen omits the box conjunct; the counterexample
shows it is necessary.) -/
theorem C1_query_iff_in_range_open_and_boxed (dist : ℚ → ℚ → ℚ → ℚ → ℚ)
    (df : List Restaurant) (lat lon : ℚ) (ct : Option Time) (now : Time)
    (hnd : (df.map Restaurant.id).Nodup)
    (hwf : ∀ r ∈ df, (parseTime r.open_hour).isSome ∧
      (parseTime r.close_hour).isSome) :
    ∃ l, find_restaurants_in_radius dist
        (build_index SpatialIndex.init df) lat lon ct now = some l ∧
      ∀ r ∈ df, (r.id ∈ l ↔ (boxCond lat lon r = true ∧
        dist lat lon r.latitude r.longitude ≤ r.availability_radius ∧
        is_open r.open_hour r.close_hour ct now = some true)) := by
  refine ⟨_, find_restaurants_build dist df lat lon ct now hnd hwf, ?_⟩
  intro r hr
  have hopen := is_open_eq_openBool r.open_hour r.close_hour ct now
    (hwf r hr).1 (hwf r hr).2
  constructor
  · intro hmem
    rcases List.mem_map.mp hmem with ⟨a, ha, haid⟩
    have hadf : a ∈ df := List.mem_of_mem_filter ha
    have haeq : a = r := List.inj_on_of_nodup_map hnd hadf hr haid
    subst haeq
    have hcond := List.of_mem_filter ha
    rcases Bool.and_eq_true_iff.mp hcond with ⟨hbox, hfine⟩
    rcases Bool.and_eq_true_iff.mp hfine with ⟨hdist, hob⟩
    refine ⟨hbox, of_decide_eq_true hdist, ?_⟩
    rw [hopen, hob]
  · rintro ⟨hbox, hdist, hopen2⟩
    refine List.mem_map.mpr ⟨r, List.mem_filter.mpr ⟨hr, ?_⟩, rfl⟩
    have hob : openBool r.open_hour r.close_hour (ct.getD now) = true := by
      rw [hopen] at hopen2
      exact Option.some_injective _ hopen2
    refine Bool.and_eq_true_iff.mpr ⟨hbox, ?_⟩
    exact Bool.and_eq_true_iff.mpr ⟨decide_eq_true hdist, hob⟩

/-- C1 witness: a one-provider dataset at the query point, open at noon. -/
theorem C1_query_iff_in_range_open_and_boxed_witness :
    ∃ l, find_restaurants_in_radius equatorDist
        (build_index SpatialIndex.init
          [⟨1, 0, 0, 5, "09:00:00", "17:00:00", 4⟩]) 0 0
        (some (mkTime 12 0 0)) 0 = some l ∧
      ∀ r ∈ ([⟨1, 0, 0, 5, "09:00:00", "17:00:00", 4⟩] : List Restaurant),
        (r.id ∈ l ↔ (boxCond 0 0 r = true ∧
          equatorDist 0 0 r.latitude r.longitude ≤ r.availability_radius ∧
          is_open r.open_hour r.close_hour (some (mkTime 12 0 0)) 0 =
            some true)) :=
  C1_query_iff_in_range_open_and_boxed equatorDist
    [⟨1, 0, 0, 5, "09:00:00", "17:00:00", 4⟩] 0 0 (some (mkTime 12 0 0)) 0
    (by decide) (by decide)

/-- C3 counterexample: the result list is *not* ordered by ascending
provider id.  Two co-located providers loaded in the order id 2, id 1 —
both in range and open — are returned as `[2, 1]`, the R-tree
candidate-enumeration order, which is not ascending. -/
theorem C3_counterexample_not_sorted :
    find_restaurants_in_radius equatorDist
      (build_index SpatialIndex.init
        [⟨2, 0, 0, 5, "00:00:00", "23:59:59", 4⟩,
         ⟨1, 0, 0, 5, "00:00:00", "23:59:59", 4⟩]) 0 0
      (some (mkTime 12 0 0)) 0 = some [2, 1] ∧
    ¬ List.Sorted (· ≤ ·) ([2, 1] : List ℤ) := by
  constructor
  · rw [find_restaurants_in_radius, build_index]
    norm_num [insertRow, SpatialIndex.init, get_candidate_restaurants,
      radius_deg, filter_candidates, dictGet, dictInsert, equatorDist,
      is_open, parseTime_000000, parseTime_235959, mkTime]
  · intro h
    have h21 := List.rel_of_sorted_cons h 1 (by simp)
    omega

/-- C3 (amended): `find_restaurants_in_radius` applies no sorting — the
result preserves the order in which the R-tree intersection enumerates
candidates (insertion order in this model).  Consequently the result is
ascending exactly when the providers were loaded in ascending-id order. -/
theorem C3_sorted_when_loaded_sorted (dist : ℚ → ℚ → ℚ → ℚ → ℚ)
    (df : List Restaurant) (lat lon : ℚ) (ct : Option Time) (now : Time)
    (hsort : (df.map Restaurant.id).Sorted (· < ·))
    (hwf : ∀ r ∈ df, (parseTime r.open_hour).isSome ∧
      (parseTime r.close_hour).isSome) :
    ∃ l, find_restaurants_in_radius dist
        (build_index SpatialIndex.init df) lat lon ct now = some l ∧
      l.Sorted (· < ·) := by
  have hnd : (df.map Restaurant.id).Nodup := hsort.nodup
  refine ⟨_, find_restaurants_build dist df lat lon ct now hnd hwf, ?_⟩
  have hsub : List.Sublist
      ((df.filter (fun r => boxCond lat lon r &&
        fineCond dist lat lon (ct.getD now) r)).map Restaurant.id)
      (df.map Restaurant.id) :=
    (List.filter_sublist df).map Restaurant.id
  exact List.Pairwise.sublist hsub hsort

/-- C3 witness: two providers loaded in ascending-id order. -/
theorem C3_sorted_when_loaded_sorted_witness :
    ∃ l, find_restaurants_in_radius equatorDist
        (build_index SpatialIndex.init
          [⟨1, 0, 0, 5, "09:00:00", "17:00:00", 4⟩,
           ⟨2, 0, 0, 5, "09:00:00", "17:00:00", 4⟩]) 0 0
        (some (mkTime 12 0 0)) 0 = some l ∧
      l.Sorted (· < ·) :=
  C3_sorted_when_loaded_sorted equatorDist
    [⟨1, 0, 0, 5, "09:00:00", "17:00:00", 4⟩,
     ⟨2, 0, 0, 5, "09:00:00", "17:00:00", 4⟩] 0 0 (some (mkTime 12 0 0)) 0
    (by simp [List.sorted_cons]) (by decide)

/-- C4 counterexample: `build_index` does not replace prior content.
After building with a dataset containing only provider 1 and then
rebuilding with a dataset containing only provider 2, the attribute
mapping still holds provider 1's record, and a query returns `[1, 2]` —
the provider present only in the earlier dataset appears in the result. -/
theorem C4_counterexample_rebuild_keeps_old :
    dictGet (build_index
      (build_index SpatialIndex.init
        [⟨1, 0, 0, 5, "00:00:00", "23:59:59", 4⟩])
      [⟨2, 0, 1/2, 60, "00:00:00", "23:59:59", 4⟩]).restaurants 1 =
      some ⟨1, 0, 0, 5, "00:00:00", "23:59:59", 4⟩ ∧
    find_restaurants_in_radius equatorDist
      (build_index
        (build_index SpatialIndex.init
          [⟨1, 0, 0, 5, "00:00:00", "23:59:59", 4⟩])
        [⟨2, 0, 1/2, 60, "00:00:00", "23:59:59", 4⟩]) 0 0
      (some (mkTime 12 0 0)) 0 = some [1, 2] := by
  have habs : |(1 / 2 : ℚ) - 0| = 1 / 2 := by
    rw [abs_of_nonneg (by norm_num : (0 : ℚ) ≤ 1 / 2 - 0)]
    norm_num
  have habs2 : |(1 / 2 : ℚ)| = 1 / 2 :=
    abs_of_nonneg (by norm_num : (0 : ℚ) ≤ 1 / 2)
  constructor
  · rfl
  · rw [find_restaurants_in_radius, build_index, build_index]
    norm_num [insertRow, SpatialIndex.init, get_candidate_restaurants,
      radius_deg, filter_candidates, dictGet, dictInsert, equatorDist,
      habs, habs2, is_open, parseTime_000000, parseTime_235959, mkTime]

/-- C4 (amended): `build_index` accumulates instead of replacing: it
appends the new dataset's points to the spatial structure after the old
ones, and only overwrites attribute records whose id reappears — the
record of any id absent from the new dataset survives unchanged (and, as
the counterexample shows, can still be returned by queries). -/
theorem C4_build_index_accumulates (st : SpatialIndex)
    (df : List Restaurant) (i : ℤ) (h : i ∉ df.map Restaurant.id) :
    (build_index st df).idx =
      st.idx ++ df.map (fun r => (r.id, r.latitude, r.longitude)) ∧
    dictGet (build_index st df).restaurants i = dictGet st.restaurants i :=
  ⟨build_index_idx st df, build_index_restaurants_not_mem df st i h⟩

/-- C4 witness: rebuilding with a dataset not containing id 1 keeps
id 1's record reachable. -/
theorem C4_build_index_accumulates_witness :
    (1 : ℤ) ∉ ([⟨2, 0, 1/2, 60, "00:00:00", "23:59:59", 4⟩] :
      List Restaurant).map Restaurant.id ∧
    ((build_index
        (build_index SpatialIndex.init
          [⟨1, 0, 0, 5, "00:00:00", "23:59:59", 4⟩])
        [⟨2, 0, 1/2, 60, "00:00:00", "23:59:59", 4⟩]).idx =
      (build_index SpatialIndex.init
        [⟨1, 0, 0, 5, "00:00:00", "23:59:59", 4⟩]).idx ++
      ([⟨2, 0, 1/2, 60, "00:00:00", "23:59:59", 4⟩] :
        List Restaurant).map (fun r => (r.id, r.latitude, r.longitude)) ∧
    dictGet (build_index
        (build_index SpatialIndex.init
          [⟨1, 0, 0, 5, "00:00:00", "23:59:59", 4⟩])
        [⟨2, 0, 1/2, 60, "00:00:00", "23:59:59", 4⟩]).restaurants 1 =
      dictGet (build_index SpatialIndex.init
        [⟨1, 0, 0, 5, "00:00:00", "23:59:59", 4⟩]).restaurants 1) :=
  ⟨by decide,
    C4_build_index_accumulates
      (build_index SpatialIndex.init
        [⟨1, 0, 0, 5, "00:00:00", "23:59:59", 4⟩])
      [⟨2, 0, 1/2, 60, "00:00:00", "23:59:59", 4⟩] 1 (by decide)⟩

/-! ### Claims about CachingSpatialIndex -/

theorem cacheLookup_append_self (cache : List (CacheKey × List ℤ))
    (k : CacheKey) (r : List ℤ) (h : cacheLookup cache k = none) :
    ∀ evicted, (∀ x ∈ evicted, x ∈ cache) →
      cacheLookup (evicted ++ [(k, r)]) k = some r := by
  intro evicted hsub
  have hnone : cache.find? (fun p => decide (p.1 = k)) = none := by
    unfold cacheLookup at h
    exact Option.map_eq_none.mp h
  have hev : evicted.find? (fun p => decide (p.1 = k)) = none :=
    List.find?_eq_none.mpr
      (fun x hx => List.find?_eq_none.mp hnone x (hsub x hx))
  simp [cacheLookup, List.find?_append, hev]

/-- C7: on every caching-decorator state — whatever the cache contents
and counter values — `build_index` leaves the cache empty and both the
hit and the miss counter at zero. -/
theorem C7_build_index_resets_cache {σ δ : Type*} (innerBuild : σ → δ → σ)
    (st : CachingSpatialIndex σ) (restaurants_data : δ) :
    (cachedBuildIndex innerBuild st restaurants_data).cache = [] ∧
    (cachedBuildIndex innerBuild st restaurants_data).cache_hits = 0 ∧
    (cachedBuildIndex innerBuild st restaurants_data).cache_misses = 0 :=
  ⟨rfl, rfl, rfl⟩

/-- C6: two consecutive queries whose coordinates round to the same four
decimals and whose instants truncate to the same whole minute (or are
both omitted) — the first on a cache not yet holding the key — return
identical lists; the first registers a miss (miss counter up by one, hit
counter unchanged), the second a hit (hit counter up by one, miss counter
unchanged), and the second call never invokes the wrapped index (its
outcome is independent of the wrapped index's query function). -/
theorem C6_repeat_query_hits_cache {σ : Type*}
    (innerFind : σ → ℚ → ℚ → Option Time → List ℤ)
    (st : CachingSpatialIndex σ) (lat1 lon1 lat2 lon2 : ℚ)
    (t1 t2 : Option Time) (hsize : 1 ≤ st.cache_size)
    (hlat : round4 lat1 = round4 lat2) (hlon : round4 lon1 = round4 lon2)
    (ht : timeKey t1 = timeKey t2)
    (hmiss : cacheLookup st.cache (cacheKey lat1 lon1 t1) = none) :
    (cachedFind innerFind ((cachedFind innerFind st lat1 lon1 t1).2)
        lat2 lon2 t2).1 = (cachedFind innerFind st lat1 lon1 t1).1 ∧
    ((cachedFind innerFind st lat1 lon1 t1).2).cache_misses =
      st.cache_misses + 1 ∧
    ((cachedFind innerFind st lat1 lon1 t1).2).cache_hits = st.cache_hits ∧
    ((cachedFind innerFind ((cachedFind innerFind st lat1 lon1 t1).2)
        lat2 lon2 t2).2).cache_hits = st.cache_hits + 1 ∧
    ((cachedFind innerFind ((cachedFind innerFind st lat1 lon1 t1).2)
        lat2 lon2 t2).2).cache_misses = st.cache_misses + 1 ∧
    (∀ g : σ → ℚ → ℚ → Option Time → List ℤ,
      cachedFind g ((cachedFind innerFind st lat1 lon1 t1).2) lat2 lon2 t2 =
        cachedFind innerFind ((cachedFind innerFind st lat1 lon1 t1).2)
          lat2 lon2 t2) := by
  have hkey : cacheKey lat2 lon2 t2 = cacheKey lat1 lon1 t1 := by
    simp [cacheKey, hlat, hlon, ht]
  have h1r : (cachedFind innerFind st lat1 lon1 t1).1 =
      innerFind st.spatial_index lat1 lon1 t1 := by
    simp [cachedFind, hmiss]
  have h2c : ((cachedFind innerFind st lat1 lon1 t1).2).cache =
      (if st.cache_size ≤ st.cache.length then st.cache.drop 1
        else st.cache) ++
      [(cacheKey lat1 lon1 t1, innerFind st.spatial_index lat1 lon1 t1)] := by
    simp [cachedFind, hmiss]
  have h2m : ((cachedFind innerFind st lat1 lon1 t1).2).cache_misses =
      st.cache_misses + 1 := by
    simp [cachedFind, hmiss]
  have h2h : ((cachedFind innerFind st lat1 lon1 t1).2).cache_hits =
      st.cache_hits := by
    simp [cachedFind, hmiss]
  have hlook2 : cacheLookup ((cachedFind innerFind st lat1 lon1 t1).2).cache
      (cacheKey lat2 lon2 t2) =
      some (innerFind st.spatial_index lat1 lon1 t1) := by
    rw [h2c, hkey]
    refine cacheLookup_append_self st.cache _ _ hmiss _ ?_
    intro x hx
    split at hx
    · exact List.mem_of_mem_drop hx
    · exact hx
  set st1 := (cachedFind innerFind st lat1 lon1 t1).2 with hst1
  refine ⟨?_, h2m, h2h, ?_, ?_, ?_⟩
  · rw [h1r]
    simp [cachedFind, hlook2]
  · simp [cachedFind, hlook2, h2h]
  · simp [cachedFind, hlook2, h2m]
  · intro g
    simp only [cachedFind, hlook2]

/-- C6 witness: a fresh cache of capacity 5 over a constant wrapped
index, queried twice at the same point with no instant. -/
theorem C6_repeat_query_hits_cache_witness :
    (cachedFind (fun _ _ _ _ => [3])
        ((cachedFind (fun _ _ _ _ => [3])
          (CachingSpatialIndex.init (0 : ℕ) 5) 0 0 none).2) 0 0 none).1 =
      (cachedFind (fun _ _ _ _ => [3])
        (CachingSpatialIndex.init (0 : ℕ) 5) 0 0 none).1 ∧
    ((cachedFind (fun _ _ _ _ => [3])
        ((cachedFind (fun _ _ _ _ => [3])
          (CachingSpatialIndex.init (0 : ℕ) 5) 0 0 none).2) 0 0
        none).2).cache_hits = 0 + 1 ∧
    ((cachedFind (fun _ _ _ _ => [3])
        (CachingSpatialIndex.init (0 : ℕ) 5) 0 0 none).2).cache_misses =
      0 + 1 := by
  obtain ⟨h1, h2, h3, h4, h5, h6⟩ :=
    C6_repeat_query_hits_cache (fun _ _ _ _ => [3])
      (CachingSpatialIndex.init (0 : ℕ) 5) 0 0 0 0 none none (by decide)
      rfl rfl rfl rfl
  exact ⟨h1, h4, h2⟩

theorem cachedFind_step {σ : Type*}
    (innerFind : σ → ℚ → ℚ → Option Time → List ℤ)
    (st : CachingSpatialIndex σ) (lat lon : ℚ) (t : Option Time)
    (hsize : 1 ≤ st.cache_size) (hlen : st.cache.length ≤ st.cache_size) :
    ((cachedFind innerFind st lat lon t).2).cache.length ≤ st.cache_size ∧
    ((cachedFind innerFind st lat lon t).2).cache_size = st.cache_size ∧
    ((cachedFind innerFind st lat lon t).2).cache_hits +
      ((cachedFind innerFind st lat lon t).2).cache_misses =
      st.cache_hits + st.cache_misses + 1 := by
  cases hlook : cacheLookup st.cache (cacheKey lat lon t) with
  | some stored =>
    have hc : ((cachedFind innerFind st lat lon t).2).cache = st.cache := by
      simp [cachedFind, hlook]
    have hs : ((cachedFind innerFind st lat lon t).2).cache_size =
        st.cache_size := by
      simp [cachedFind, hlook]
    have hh : ((cachedFind innerFind st lat lon t).2).cache_hits =
        st.cache_hits + 1 := by
      simp [cachedFind, hlook]
    have hm : ((cachedFind innerFind st lat lon t).2).cache_misses =
        st.cache_misses := by
      simp [cachedFind, hlook]
    rw [hc, hs, hh, hm]
    exact ⟨hlen, rfl, by omega⟩
  | none =>
    have hc : ((cachedFind innerFind st lat lon t).2).cache =
        (if st.cache_size ≤ st.cache.length then st.cache.drop 1
          else st.cache) ++
        [(cacheKey lat lon t, innerFind st.spatial_index lat lon t)] := by
      simp [cachedFind, hlook]
    have hs : ((cachedFind innerFind st lat lon t).2).cache_size =
        st.cache_size := by
      simp [cachedFind, hlook]
    have hh : ((cachedFind innerFind st lat lon t).2).cache_hits =
        st.cache_hits := by
      simp [cachedFind, hlook]
    have hm : ((cachedFind innerFind st lat lon t).2).cache_misses =
        st.cache_misses + 1 := by
      simp [cachedFind, hlook]
    rw [hc, hs, hh, hm]
    refine ⟨?_, rfl, by omega⟩
    by_cases hfull : st.cache_size ≤ st.cache.length
    · have hdrop : ((st.cache.drop 1) ++ [(cacheKey lat lon t,
          innerFind st.spatial_index lat lon t)]).length =
          st.cache.length - 1 + 1 := by
        simp
      rw [if_pos hfull, hdrop]
      omega
    · have hlen2 : (st.cache ++ [(cacheKey lat lon t,
          innerFind st.spatial_index lat lon t)]).length =
          st.cache.length + 1 := by
        simp
      rw [if_neg hfull, hlen2]
      omega

/-- C10: from a fresh (or just-rebuilt) caching state with capacity at
least 1, after any sequence of queries the cache holds at most
`cache_size` entries (one entry being evicted before insertion when the
cache is full), and the hit counter plus the miss counter equals the
number of queries made. -/
theorem C10_cache_bounded_and_counters_count {σ : Type*}
    (innerFind : σ → ℚ → ℚ → Option Time → List ℤ)
    (st0 : CachingSpatialIndex σ) (qs : List (ℚ × ℚ × Option Time))
    (hsize : 1 ≤ st0.cache_size) (hc : st0.cache = [])
    (hh : st0.cache_hits = 0) (hm : st0.cache_misses = 0) :
    (runQueries innerFind st0 qs).cache.length ≤ st0.cache_size ∧
    (runQueries innerFind st0 qs).cache_hits +
      (runQueries innerFind st0 qs).cache_misses = qs.length := by
  suffices h : ∀ st : CachingSpatialIndex σ,
      st.cache_size = st0.cache_size → st.cache.length ≤ st.cache_size →
      (runQueries innerFind st qs).cache.length ≤ st0.cache_size ∧
      (runQueries innerFind st qs).cache_size = st0.cache_size ∧
      (runQueries innerFind st qs).cache_hits +
        (runQueries innerFind st qs).cache_misses =
        st.cache_hits + st.cache_misses + qs.length by
    have hfin := h st0 rfl (by simp [hc])
    rw [hh, hm] at hfin
    exact ⟨hfin.1, by omega⟩
  induction qs with
  | nil =>
    intro st h1 h2
    exact ⟨h1 ▸ h2, h1, by simp [runQueries]⟩
  | cons q rest ih =>
    intro st h1 h2
    have hstep := cachedFind_step innerFind st q.1 q.2.1 q.2.2
      (h1 ▸ hsize) h2
    have hrun : runQueries innerFind st (q :: rest) =
        runQueries innerFind
          ((cachedFind innerFind st q.1 q.2.1 q.2.2).2) rest := rfl
    rw [hrun]
    have hnext := ih ((cachedFind innerFind st q.1 q.2.1 q.2.2).2)
      (hstep.2.1.trans h1) (by rw [hstep.2.1]; exact h1 ▸ hstep.1)
    refine ⟨hnext.1, hnext.2.1, ?_⟩
    rw [hnext.2.2, hstep.2.2]
    simp [List.length_cons]
    omega

/-- C10 witness: capacity-1 cache, two queries. -/
theorem C10_cache_bounded_and_counters_count_witness :
    (runQueries (fun _ _ _ _ => ([] : List ℤ))
        (CachingSpatialIndex.init (0 : ℕ) 1)
        [(0, 0, none), (1, 2, some 0)]).cache.length ≤ 1 ∧
    (runQueries (fun _ _ _ _ => ([] : List ℤ))
        (CachingSpatialIndex.init (0 : ℕ) 1)
        [(0, 0, none), (1, 2, some 0)]).cache_hits +
      (runQueries (fun _ _ _ _ => ([] : List ℤ))
        (CachingSpatialIndex.init (0 : ℕ) 1)
        [(0, 0, none), (1, 2, some 0)]).cache_misses = 2 :=
  C10_cache_bounded_and_counters_count (fun _ _ _ _ => ([] : List ℤ))
    (CachingSpatialIndex.init (0 : ℕ) 1) [(0, 0, none), (1, 2, some 0)]
    (by decide) rfl rfl rfl

end RestaurantLookup
